import Mathlib

/-!
Verification of the AuraaSync auth backend (`src/main.py`, FastAPI +
Firebase Auth + Supabase) against its natural-language specification.

The file shallowly embeds the helper functions and route handlers of
`main.py`.  External delegated calls (Firebase token verification, the
Supabase insert/delete network calls) are modelled by explicit outcome
parameters; the Supabase `users` table is modelled as a `List UserRow`
threaded through the handlers, with `select`/`update`/`insert` given
their straightforward list semantics.  Python dict `.get` accesses with
possible absence are modelled with `Option` and `Option.getD`.
-/

namespace AuraaSync

/-- Decoded Firebase ID token, as consumed by `main.py`.  The code reads it
as a Python dict: `uid` is always present on a verified token;
`email`, `name`, `picture` are read with `.get` (may be absent);
`sign_in_provider` stands for `get('firebase',{}).get('sign_in_provider')`;
`email_verified` is read with `.get('email_verified', False)`. -/
structure Claims where
  uid : String
  email : Option String
  name : Option String
  picture : Option String
  sign_in_provider : Option String
  email_verified : Option Bool
deriving DecidableEq, Repr

/-- Distinguishable ways the delegated `auth.verify_id_token` call can fail.
All of them surface in Python as an exception caught by the single
`except Exception` clause of `verify_firebase_token`. -/
inductive TokenFailure where
  | expired
  | invalidSignature
  | notYetValid
  | providerOutage
deriving DecidableEq, Repr

/-- Embedding of `fastapi.HTTPException` as raised by `main.py`: a status code family plus
the `detail` string sent to the caller. -/
inductive ApiError where
  | serviceUnavailable (detail : String)
  | unauthorized (detail : String)
  | notFound (detail : String)
  | internalError (detail : String)
deriving DecidableEq, Repr

/-- The HTTP status code of each error constructor (503 / 401 / 404 / 500). -/
def ApiError.statusCode : ApiError → Nat
  | .serviceUnavailable _ => 503
  | .unauthorized _ => 401
  | .notFound _ => 404
  | .internalError _ => 500

/-- HTTP status of a handler outcome: 200 on success, else the error's code. -/
def statusOf {α : Type} : Except ApiError α → Nat
  | .ok _ => 200
  | .error e => e.statusCode

/-- A row of the Supabase `users` table, exactly the record built by
`create_user_in_supabase` (lines 215-224 of `main.py`).  `email` is
`user_data.get('email')` and hence may be null. -/
structure UserRow where
  firebase_uid : String
  email : Option String
  name : String
  picture : String
  provider : String
  email_verified : Bool
  created_at : String
  last_login : String
deriving DecidableEq, Repr

/-- Request body of `POST /auth/login` (`TokenRequest` in `main.py`): the
only field is the Firebase ID token. -/
structure TokenRequest where
  idToken : String
deriving DecidableEq, Repr

/-- Response shape `UserProfile` of `main.py` (lines 99-108).  `email` is
declared `email: str` there: a required, non-None pydantic field, so a
null email cannot appear in a shaped response (the constructor raises
instead; see `mkUserProfile`). -/
structure UserProfile where
  uid : String
  email : String
  name : String
  picture : String
  provider : String
  email_verified : Bool
  created_at : Option String
  last_login : Option String
deriving DecidableEq, Repr

/-- Response shape `AuthResponse` of `main.py`. -/
structure AuthResponse where
  success : Bool
  message : String
  user : UserProfile
  is_new_user : Bool
deriving DecidableEq, Repr

/-- Request body of the PUT profile route (`UserUpdateRequest` in `main.py`):
both fields optional. -/
structure UserUpdateRequest where
  name : Option String
  picture : Option String
deriving DecidableEq, Repr

/-- Success body returned by the DELETE profile route. -/
structure DeleteResponse where
  success : Bool
  message : String
  note : String
deriving DecidableEq, Repr

/-- The outcome of the delegated Supabase insert call inside
`create_user_in_supabase`: either it succeeds with data returned, or an
exception with message `msg` reaches the `except` clause (this also covers
the `result.data` empty case, re-raised as
"No data returned from insert operation"). -/
inductive InsertOutcome where
  | ok
  | fail (msg : String)
deriving DecidableEq, Repr

/-- Detail string of the 503 raised when the Supabase client is missing. -/
def supabaseNotConfigured : String :=
  "Supabase service is not configured. Please set up .env file with Supabase credentials"

/-- Embedding of `verify_firebase_token` (lines 132-161).  `fbInit` is the module-level
`firebase_initialized` flag.  `attempt i` is the outcome the delegated
`auth.verify_id_token` call would produce on its `i`-th invocation; the
source invokes it exactly once (`attempt 0`) inside one `try`, and the
single `except Exception` clause maps every failure to the same
401 `HTTPException`. -/
def verify_firebase_token (fbInit : Bool)
    (attempt : Nat → Except TokenFailure Claims) : Except ApiError Claims :=
  if fbInit = false then
    .error (.serviceUnavailable
      "Firebase service is not configured. Please set up firebase-service-account.json")
  else
    match attempt 0 with
    | .ok decoded_token => .ok decoded_token
    | .error _ => .error (.unauthorized "Invalid or expired Firebase token")

/-- Embedding of `get_user_from_supabase` (lines 163-192): select rows with matching
`firebase_uid`, return the first if any, else `none`.  `sbInit` is the
module-level `supabase_initialized` flag. -/
def get_user_from_supabase (sbInit : Bool) (db : List UserRow)
    (firebase_uid : String) : Except ApiError (Option UserRow) :=
  if sbInit = false then .error (.serviceUnavailable supabaseNotConfigured)
  else .ok (db.find? (fun r => r.firebase_uid == firebase_uid))

/-- The `user_record` dict built by `create_user_in_supabase`
(lines 215-224), field by field, including the `.get` defaults
(`''` for name and picture, `'email'` for the sign-in provider,
`False` for `email_verified`).  `now` stands for
`datetime.utcnow().isoformat()`. -/
def user_record (user_data : Claims) (now : String) : UserRow :=
  { firebase_uid := user_data.uid
    email := user_data.email
    name := user_data.name.getD ""
    picture := user_data.picture.getD ""
    provider := user_data.sign_in_provider.getD "email"
    email_verified := user_data.email_verified.getD false
    created_at := now
    last_login := now }

/-- Embedding of `create_user_in_supabase` (lines 194-240): build `user_record` and
insert it.  On any exception `m` from the insert, the `except` clause
raises a 500 whose `detail` interpolates the raw exception text
(line 239: `f"Failed to create user in database: \x7bstr(e)\x7d"`).
Returns the handler outcome together with the table contents after
the call. -/
def create_user_in_supabase (sbInit : Bool) (ins : InsertOutcome)
    (user_data : Claims) (now : String) (db : List UserRow) :
    Except ApiError UserRow × List UserRow :=
  if sbInit = false then (.error (.serviceUnavailable supabaseNotConfigured), db)
  else
    match ins with
    | .ok => (.ok (user_record user_data now), db ++ [user_record user_data now])
    | .fail m =>
        (.error (.internalError ("Failed to create user in database: " ++ m)), db)

/-- The per-row effect of the Supabase update executed by
`update_user_last_login`: set `last_login` on rows whose `firebase_uid`
matches, leave every other row (and every other field) unchanged. -/
def refresh_last_login (firebase_uid now : String) (r : UserRow) : UserRow :=
  if r.firebase_uid == firebase_uid then { r with last_login := now } else r

/-- Embedding of `update_user_last_login` (lines 242-274): update `last_login` of the
matching rows; `result.data` holds the updated rows, whose first element
is returned; if no row matched, the raised exception is caught and mapped
to a fixed-message 500. -/
def update_user_last_login (sbInit : Bool) (firebase_uid : String)
    (now : String) (db : List UserRow) : Except ApiError UserRow × List UserRow :=
  if sbInit = false then (.error (.serviceUnavailable supabaseNotConfigured), db)
  else
    let db' := db.map (refresh_last_login firebase_uid now)
    match db'.find? (fun r => r.firebase_uid == firebase_uid) with
    | some r => (.ok r, db')
    | none => (.error (.internalError "Failed to update user login time"), db')

/-- Response shaping used by the handlers (e.g. lines 395-404): a
`UserProfile` built field by field from a stored row.  Pydantic rejects
`email=None` (`email: str` is required and non-None), so shaping a row
whose stored email is null raises a `ValidationError`; `none` here is
that raise, which each route's generic `except` clause then maps to its
own fixed-message 500. -/
def mkUserProfile (r : UserRow) : Option UserProfile :=
  match r.email with
  | none => none
  | some e =>
    some { uid := r.firebase_uid
           email := e
           name := r.name
           picture := r.picture
           provider := r.provider
           email_verified := r.email_verified
           created_at := some r.created_at
           last_login := some r.last_login }

/-- Step 4 of `firebase_auth_handler` (lines 394-411) together with its
failure path: build the `UserProfile` and wrap it in an `AuthResponse`;
if the pydantic constructor raises (null row email), the `except
Exception` clause of line 416 answers the fixed 500
"Internal server error during authentication". -/
def shape_auth_response (message : String) (is_new_user : Bool)
    (user_data : UserRow) : Except ApiError AuthResponse :=
  match mkUserProfile user_data with
  | some p =>
      .ok { success := true, message := message, user := p, is_new_user := is_new_user }
  | none => .error (.internalError "Internal server error during authentication")

/-- Embedding of `firebase_auth_handler`, the `POST /auth/login` route (lines 362-421):
verify the token, look the user up by `firebase_uid`, then either refresh
`last_login` (existing user, `is_new_user = False`) or insert a new row
(`is_new_user = True`), and shape the `AuthResponse`.  `token_request` is
the full request body; beyond supplying the token string it carries no
further data into the flow. -/
def firebase_auth_handler (fbInit sbInit : Bool)
    (attempt : Nat → Except TokenFailure Claims) (ins : InsertOutcome)
    (_token_request : TokenRequest) (db : List UserRow) (now : String) :
    Except ApiError AuthResponse × List UserRow :=
  match verify_firebase_token fbInit attempt with
  | .error e => (.error e, db)
  | .ok firebase_user_data =>
    let firebase_uid := firebase_user_data.uid
    match get_user_from_supabase sbInit db firebase_uid with
    | .error e => (.error e, db)
    | .ok (some _) =>
      match update_user_last_login sbInit firebase_uid now db with
      | (.error e, db') => (.error e, db')
      | (.ok u, db') =>
        (shape_auth_response "User logged in successfully" false u, db')
    | .ok none =>
      match create_user_in_supabase sbInit ins firebase_user_data now db with
      | (.error e, db') => (.error e, db')
      | (.ok u, db') =>
        (shape_auth_response "User registered and logged in successfully" true u, db')

/-- Embedding of `get_user_profile`, the GET route on `/auth/user` per uid
(lines 423-466): the identity is the `firebase_uid` path parameter; the
route takes no token and performs no verification.  If shaping the found
row raises (null stored email), the `except` of line 461 answers the
fixed 500 "Failed to fetch user profile". -/
def get_user_profile (sbInit : Bool) (db : List UserRow)
    (firebase_uid : String) : Except ApiError UserProfile :=
  match get_user_from_supabase sbInit db firebase_uid with
  | .error e => .error e
  | .ok none => .error (.notFound "User not found")
  | .ok (some r) =>
    match mkUserProfile r with
    | some p => .ok p
    | none => .error (.internalError "Failed to fetch user profile")

/-- The per-row effect of the Supabase update in `update_user_profile`:
apply exactly the fields present in `update_fields` (lines 501-505). -/
def apply_update_fields (update_data : UserUpdateRequest) (r : UserRow) : UserRow :=
  let r1 := match update_data.name with
    | some n => { r with name := n }
    | none => r
  match update_data.picture with
  | some p => { r1 with picture := p }
  | none => r1

/-- Embedding of `update_user_profile`, the PUT route on `/auth/user` per uid
(lines 468-538): no token, identity from the path.  With both body fields
absent the code reaches line 509, `return UserProfile(**existing_user)`;
the stored row dict has the key `firebase_uid` and no key `uid`, so the
`UserProfile` constructor raises a validation error (missing required
field `uid`), which the generic `except` maps to the fixed-message 500 of
line 535.  Otherwise only the supplied fields are written and the updated
row is shaped into the response; if that shaping raises (null stored
email), the same `except` clause answers the same fixed 500. -/
def update_user_profile (sbInit : Bool) (db : List UserRow)
    (firebase_uid : String) (update_data : UserUpdateRequest) :
    Except ApiError UserProfile × List UserRow :=
  if sbInit = false then (.error (.serviceUnavailable supabaseNotConfigured), db)
  else
    match get_user_from_supabase sbInit db firebase_uid with
    | .error e => (.error e, db)
    | .ok none => (.error (.notFound "User not found"), db)
    | .ok (some _existing) =>
      if update_data.name = none ∧ update_data.picture = none then
        (.error (.internalError "Failed to update user profile"), db)
      else
        let db' := db.map (fun r =>
          if r.firebase_uid == firebase_uid then apply_update_fields update_data r else r)
        match db'.find? (fun r => r.firebase_uid == firebase_uid) with
        | some u =>
          match mkUserProfile u with
          | some p => (.ok p, db')
          | none => (.error (.internalError "Failed to update user profile"), db')
        | none => (.error (.internalError "Failed to update user profile"), db')

/-- Embedding of `delete_user`, the DELETE route on `/auth/user` per uid
(lines 540-585): no token, identity from the path.  `delResult` is the
outcome of the delegated Supabase delete call of line 568: an exception
message, or the `result` object whose `data` (the rows actually removed)
is bound on line 568 and never read afterwards; the fixed success body is
returned whenever the call does not raise. -/
def delete_user (sbInit : Bool) (db : List UserRow) (firebase_uid : String)
    (delResult : Except String (List UserRow)) : Except ApiError DeleteResponse :=
  if sbInit = false then .error (.serviceUnavailable supabaseNotConfigured)
  else
    match get_user_from_supabase sbInit db firebase_uid with
    | .error e => .error e
    | .ok none => .error (.notFound "User not found")
    | .ok (some _) =>
      match delResult with
      | .error _ => .error (.internalError "Failed to delete user")
      | .ok _ =>
        .ok { success := true
              message := "User deleted from database successfully"
              note := "Remember to also delete the user from Firebase on the frontend" }

/-- Outcome of a delegated service probe inside `health_check`. -/
inductive HealthProbe where
  | ok
  | notInit
  | err (msg : String)
deriving DecidableEq, Repr

/-- The `supabase` entry of the `services` field of the `/health` response
(lines 312-322): on an exception, the raw error text truncated to 50
characters is embedded in the response body. -/
def health_supabase_status : HealthProbe → String
  | .ok => "connected"
  | .notInit => "not_initialized"
  | .err m => "error: " ++ (m.take 50)

/-- Client-supplied profile overrides as the specification describes them
for the reconcile path (spec section 4.2: name and profile picture). -/
structure ProfileOverrides where
  name : Option String
  picture : Option String
deriving DecidableEq, Repr

/-- Modelled from the spec: the new-Profile construction rule of spec
section 4.2 step 3, "construct a new Profile using `overrides` fields
first, falling back to `claims` fields when an override is absent
(override precedence: explicit request field > token claim > empty
default)".  Declared only to compare the source's `user_record` against
the spec's wording. -/
def create_record_spec (overrides : ProfileOverrides) (claims : Claims)
    (now : String) : UserRow :=
  { firebase_uid := claims.uid
    email := claims.email
    name := overrides.name.getD (claims.name.getD "")
    picture := overrides.picture.getD (claims.picture.getD "")
    provider := claims.sign_in_provider.getD "email"
    email_verified := claims.email_verified.getD false
    created_at := now
    last_login := now }

/-- Number of stored rows whose `firebase_uid` equals `uid`. -/
def countUid : List UserRow → String → Nat
  | [], _ => 0
  | r :: t, uid => (if r.firebase_uid == uid then 1 else 0) + countUid t uid

/-- The `is_new_user` flag of a login outcome, when it succeeded. -/
def flagOf : Except ApiError AuthResponse → Option Bool
  | .ok a => some a.is_new_user
  | .error _ => none

/-- Sequential executions of `POST /auth/login`, once per timestamp in `nows`,
threading the stored table, with the Firebase verdict fixed and the
insert call succeeding; collects the per-call outcomes and the final
table. -/
def runLogins (attempt : Nat → Except TokenFailure Claims)
    (req : TokenRequest) (nows : List String) (db : List UserRow) :
    List (Except ApiError AuthResponse) × List UserRow :=
  match nows with
  | [] => ([], db)
  | now :: rest =>
    let out := firebase_auth_handler true true attempt InsertOutcome.ok req db now
    let tail := runLogins attempt req rest out.2
    (out.1 :: tail.1, tail.2)

/-- Erase the one field the login path is allowed to touch on an existing
row, for stating frame conditions. -/
def eraseLastLogin (r : UserRow) : UserRow := { r with last_login := "" }

/-- Example claims for exercising the login flow. -/
def cW : Claims :=
  { uid := "abc123", email := some "a@x.com", name := some "Al"
    picture := none, sign_in_provider := some "google.com"
    email_verified := some true }

/-- Example claims carrying no email claim at all. -/
def cAbsent : Claims :=
  { uid := "noemail-2", email := none, name := none
    picture := none, sign_in_provider := none, email_verified := none }

/-- Example claims whose email is the empty string. -/
def cNoEmail : Claims :=
  { uid := "noemail-1", email := some "", name := none
    picture := none, sign_in_provider := none, email_verified := some true }

/-- Example claims used for the clock-skew scenario. -/
def cSkew : Claims :=
  { uid := "skew-1", email := some "s@x.com", name := none
    picture := none, sign_in_provider := none, email_verified := some false }

/-- A provider call sequence whose first verdict is the clock-skew failure
and whose second verdict (what a retry would see) is success. -/
def skewThenValid : Nat → Except TokenFailure Claims :=
  fun i => if i = 0 then Except.error TokenFailure.notYetValid else Except.ok cSkew

/-- Example claims carrying a display name and picture in the token. -/
def cTok6 : Claims :=
  { uid := "u6", email := some "u6@x.com", name := some "Token Name"
    picture := some "token-pic", sign_in_provider := some "google.com"
    email_verified := some true }

/-- Example client-supplied overrides differing from the token claims. -/
def ovr6 : ProfileOverrides :=
  { name := some "Override Name", picture := some "override-pic" }

/-- Example stored row for the profile-update scenarios. -/
def row7 : UserRow :=
  { firebase_uid := "u7", email := some "u7@x.com", name := "Seven"
    picture := "pic7", provider := "email", email_verified := true
    created_at := "c7", last_login := "l7" }

/-- Example stored row for the unauthenticated-access scenarios. -/
def row8 : UserRow :=
  { firebase_uid := "u8", email := some "u8@x.com", name := "Eight"
    picture := "pic8", provider := "google.com", email_verified := true
    created_at := "c8", last_login := "l8" }

/-- Example stored row for the login frame-condition scenario. -/
def row3 : UserRow :=
  { firebase_uid := "u3", email := some "u3@x.com", name := "Three"
    picture := "pic3", provider := "email", email_verified := false
    created_at := "c3", last_login := "l3" }

/-- Example claims matching `row3`. -/
def c3 : Claims :=
  { uid := "u3", email := some "other@x.com", name := some "Other Name"
    picture := some "other-pic", sign_in_provider := some "password"
    email_verified := some true }

/-- Example claims for the error-leak scenario. -/
def c9 : Claims :=
  { uid := "u9", email := some "u9@x.com", name := none
    picture := none, sign_in_provider := none, email_verified := none }

/-- A raw store-level error message, as `str(e)` would render it. -/
def rawErr : String := "duplicate key value violates unique constraint users_pkey"

/-- Example stored row for the delete scenario. -/
def row10 : UserRow :=
  { firebase_uid := "u10", email := some "u10@x.com", name := "Ten"
    picture := "pic10", provider := "email", email_verified := true
    created_at := "c10", last_login := "l10" }

/-- If no stored row carries `uid`, the lookup finds nothing. -/
theorem countUid_eq_zero_find (db : List UserRow) (uid : String)
    (h : countUid db uid = 0) :
    db.find? (fun r => r.firebase_uid == uid) = none := by
  induction db with
  | nil => rfl
  | cons r t ih =>
    unfold countUid at h
    cases hr : r.firebase_uid == uid with
    | true => rw [hr] at h; simp at h
    | false =>
      rw [hr] at h
      simp only [if_neg Bool.false_ne_true, Nat.zero_add] at h
      rw [List.find?_cons_of_neg _ (by simp [hr])]
      exact ih h

/-- If some stored row carries `uid`, the lookup finds one. -/
theorem countUid_pos_find (db : List UserRow) (uid : String)
    (h : 0 < countUid db uid) :
    (db.find? (fun r => r.firebase_uid == uid)).isSome := by
  induction db with
  | nil => simp [countUid] at h
  | cons r t ih =>
    unfold countUid at h
    cases hr : r.firebase_uid == uid with
    | true => simp [List.find?, hr]
    | false =>
      rw [hr] at h
      simp only [if_neg Bool.false_ne_true, Nat.zero_add] at h
      rw [List.find?_cons_of_neg _ (by simp [hr])]
      exact ih h

/-- If the count of rows carrying `uid` is zero, no row carries it. -/
theorem countUid_zero_not_mem (db : List UserRow) (uid : String)
    (h : countUid db uid = 0) :
    ∀ r ∈ db, r.firebase_uid ≠ uid := by
  induction db with
  | nil => intro r hr; cases hr
  | cons s t ih =>
    unfold countUid at h
    cases hs : s.firebase_uid == uid with
    | true => rw [hs] at h; simp at h
    | false =>
      rw [hs] at h
      simp only [if_neg Bool.false_ne_true, Nat.zero_add] at h
      intro r hr
      rcases List.mem_cons.mp hr with rfl | hr'
      · simp at hs; exact hs
      · exact ih h r hr'

/-- Refreshing `last_login` never changes the key field. -/
theorem refresh_firebase_uid (uid now : String) (r : UserRow) :
    (refresh_last_login uid now r).firebase_uid = r.firebase_uid := by
  unfold refresh_last_login
  split <;> rfl

/-- Refreshing `last_login` never changes the stored email. -/
theorem refresh_email (uid now : String) (r : UserRow) :
    (refresh_last_login uid now r).email = r.email := by
  unfold refresh_last_login
  split <;> rfl

/-- The last-login refresh preserves non-null emails on the key's rows. -/
theorem emailPresent_map_refresh (db : List UserRow) (uid now : String)
    (h : ∀ r ∈ db, r.firebase_uid = uid → r.email ≠ none) :
    ∀ r ∈ db.map (refresh_last_login uid now), r.firebase_uid = uid → r.email ≠ none := by
  intro r hr
  rcases List.mem_map.mp hr with ⟨r0, hr0, rfl⟩
  intro huid
  rw [refresh_email]
  rw [refresh_firebase_uid] at huid
  exact h r0 hr0 huid

/-- The last-login refresh preserves the number of rows per key. -/
theorem countUid_map_refresh (db : List UserRow) (uid uid' now : String) :
    countUid (db.map (refresh_last_login uid' now)) uid = countUid db uid := by
  induction db with
  | nil => rfl
  | cons r t ih =>
    simp only [List.map_cons, countUid, refresh_firebase_uid, ih]

/-- Appending one row adds one to the count of its key and nothing else. -/
theorem countUid_append (db : List UserRow) (r : UserRow) (uid : String) :
    countUid (db ++ [r]) uid
      = countUid db uid + (if r.firebase_uid == uid then 1 else 0) := by
  induction db with
  | nil => simp [countUid]
  | cons s t ih =>
    simp only [List.cons_append, countUid, List.append_eq]
    rw [ih]
    omega

/-- On a table holding the key, `update_user_last_login` succeeds with the
first refreshed matching row, and its whole effect on the table is the
per-row `refresh_last_login` map. -/
theorem update_last_login_found (uid now : String) (db : List UserRow)
    (h : 0 < countUid db uid) :
    ∃ u, (db.map (refresh_last_login uid now)).find? (fun r => r.firebase_uid == uid)
          = some u
    ∧ update_user_last_login true uid now db
        = (Except.ok u, db.map (refresh_last_login uid now)) := by
  have h' := countUid_pos_find (db.map (refresh_last_login uid now)) uid
    (by rw [countUid_map_refresh]; exact h)
  obtain ⟨u, hu⟩ := Option.isSome_iff_exists.mp h'
  refine ⟨u, hu, ?_⟩
  unfold update_user_last_login
  simp [hu]

/-- The login handler on an unseen `uid`: token accepted, lookup misses,
the create branch runs, the new row is appended, and the response is the
shaping of that new row as a registration. -/
theorem auth_handler_create (c : Claims) (req : TokenRequest)
    (db : List UserRow) (now : String) (h0 : countUid db c.uid = 0) :
    firebase_auth_handler true true (fun _ => Except.ok c) InsertOutcome.ok req db now
      = (shape_auth_response "User registered and logged in successfully" true
          (user_record c now), db ++ [user_record c now]) := by
  have hf := countUid_eq_zero_find db c.uid h0
  unfold firebase_auth_handler verify_firebase_token get_user_from_supabase
    create_user_in_supabase
  simp [hf]

/-- The login handler on a seen `uid`: token accepted, lookup hits, the
found branch runs, the table is only refreshed, and the response is the
shaping of the refreshed row as a plain login. -/
theorem auth_handler_found (c : Claims) (req : TokenRequest) (ins : InsertOutcome)
    (db : List UserRow) (now : String) (h : 0 < countUid db c.uid) :
    ∃ u, (db.map (refresh_last_login c.uid now)).find? (fun r => r.firebase_uid == c.uid)
          = some u
    ∧ firebase_auth_handler true true (fun _ => Except.ok c) ins req db now
        = (shape_auth_response "User logged in successfully" false u,
           db.map (refresh_last_login c.uid now)) := by
  obtain ⟨w, hw⟩ := Option.isSome_iff_exists.mp (countUid_pos_find db c.uid h)
  obtain ⟨u, hfind, hu⟩ := update_last_login_found c.uid now db h
  refine ⟨u, hfind, ?_⟩
  unfold firebase_auth_handler verify_firebase_token get_user_from_supabase
  simp [hw, hu]

/-- Every login in a sequence of logins against a table already holding
the key — with the key's rows carrying a non-null email, so response
shaping succeeds — takes the found branch with `is_new_user = false`,
and the per-key row count never changes. -/
theorem runLogins_existing (c : Claims) (req : TokenRequest) :
    ∀ (nows : List String) (db : List UserRow), 0 < countUid db c.uid →
      (∀ r ∈ db, r.firebase_uid = c.uid → r.email ≠ none) →
      (runLogins (fun _ => Except.ok c) req nows db).1.map flagOf
          = nows.map (fun _ => some false)
      ∧ countUid (runLogins (fun _ => Except.ok c) req nows db).2 c.uid
          = countUid db c.uid := by
  intro nows
  induction nows with
  | nil => intro db _ _; exact ⟨rfl, rfl⟩
  | cons n rest ih =>
    intro db h hep
    obtain ⟨u, hfind, hu⟩ := auth_handler_found c req InsertOutcome.ok db n h
    have hep' := emailPresent_map_refresh db c.uid n hep
    have huid : u.firebase_uid = c.uid := by
      have hp := List.find?_some hfind
      simp at hp
      exact hp
    have huemail := hep' u (List.mem_of_find?_eq_some hfind) huid
    obtain ⟨e, he⟩ : ∃ e, u.email = some e := by
      cases hx : u.email with
      | none => exact absurd hx huemail
      | some e => exact ⟨e, rfl⟩
    have hflag : flagOf (shape_auth_response "User logged in successfully" false u)
        = some false := by
      unfold shape_auth_response mkUserProfile
      rw [he]
      rfl
    have hcount := countUid_map_refresh db c.uid c.uid n
    have ih' := ih (db.map (refresh_last_login c.uid n)) (by rw [hcount]; exact h) hep'
    unfold runLogins
    rw [hu]
    simp only [List.map_cons]
    exact ⟨by rw [ih'.1, hflag], by rw [ih'.2, hcount]⟩

/-- Claim C1 counterexample: for claims carrying no email at all, the
first login with a previously unseen id still stores exactly one row,
but the call does not return `is_new_user = true`: shaping the null
email into the `email: str` response field raises, and the handler
answers the generic 500 instead. -/
theorem C1_counterexample :
    countUid ([] : List UserRow) cAbsent.uid = 0
    ∧ flagOf (firebase_auth_handler true true (fun _ => Except.ok cAbsent)
        InsertOutcome.ok { idToken := "tokA" } [] "t0").1 = none
    ∧ statusOf (firebase_auth_handler true true (fun _ => Except.ok cAbsent)
        InsertOutcome.ok { idToken := "tokA" } [] "t0").1 = 500
    ∧ countUid (firebase_auth_handler true true (fun _ => Except.ok cAbsent)
        InsertOutcome.ok { idToken := "tokA" } [] "t0").2 cAbsent.uid = 1 :=
  ⟨rfl, rfl, rfl, rfl⟩

/-- Claim C1 as amended: for every claims set carrying an email claim,
running the `POST /auth/login` flow N times sequentially with the same
`external_id` (here `firebase_uid`) and no intervening delete produces
exactly one stored row for that id; the first call takes the create
branch and returns `is_new_user = true`, every subsequent call finds the
row and returns `is_new_user = false`.  (Without an email claim exactly
one row is still stored, but every call answers 500 because the response
model rejects the null email — see the counterexample.) -/
theorem C1_reconcile_idempotent (c : Claims) (req : TokenRequest)
    (n : String) (rest : List String) (db : List UserRow)
    (hdb : countUid db c.uid = 0) (hem : c.email ≠ none) :
    (runLogins (fun _ => Except.ok c) req (n :: rest) db).1.map flagOf
        = some true :: rest.map (fun _ => some false)
    ∧ countUid (runLogins (fun _ => Except.ok c) req (n :: rest) db).2 c.uid = 1 := by
  have hc := auth_handler_create c req db n hdb
  obtain ⟨e, he⟩ : ∃ e, c.email = some e := by
    cases hx : c.email with
    | none => exact absurd hx hem
    | some e => exact ⟨e, rfl⟩
  have hure : (user_record c n).email = some e := he
  have hflag1 : flagOf (shape_auth_response "User registered and logged in successfully"
      true (user_record c n)) = some true := by
    unfold shape_auth_response mkUserProfile
    rw [hure]
    rfl
  have h1 : countUid (db ++ [user_record c n]) c.uid = 1 := by
    rw [countUid_append, hdb]
    simp [user_record]
  have hep1 : ∀ r ∈ db ++ [user_record c n], r.firebase_uid = c.uid → r.email ≠ none := by
    intro r hr huid
    rcases List.mem_append.mp hr with hrdb | hrnew
    · exact absurd huid (countUid_zero_not_mem db c.uid hdb r hrdb)
    · rcases List.mem_singleton.mp hrnew with rfl
      rw [hure]
      simp
  have hrest := runLogins_existing c req rest (db ++ [user_record c n])
    (by rw [h1]; exact Nat.one_pos) hep1
  unfold runLogins
  rw [hc]
  simp only [List.map_cons]
  exact ⟨by rw [hrest.1, hflag1], by rw [hrest.2, h1]⟩

/-- Witness for the amended C1: three sequential logins with fresh uid
`abc123` and an email-bearing token against the empty table yield
outcomes `new, existing, existing` and one stored row. -/
theorem C1_witness :
    countUid ([] : List UserRow) cW.uid = 0
    ∧ cW.email ≠ none
    ∧ (runLogins (fun _ => Except.ok cW) { idToken := "tok1" } ["t1", "t2", "t3"] []).1.map flagOf
        = [some true, some false, some false]
    ∧ countUid (runLogins (fun _ => Except.ok cW) { idToken := "tok1" } ["t1", "t2", "t3"] []).2 cW.uid = 1 := by
  have h := C1_reconcile_idempotent cW { idToken := "tok1" } "t1" ["t2", "t3"] [] rfl
    (by decide)
  exact ⟨rfl, by decide, h.1, h.2⟩

/-- Claim C2 counterexample: claims with empty email and no existing
profile do NOT produce a 400: the handler succeeds with
`is_new_user = true` and a row for that id is stored. -/
theorem C2_counterexample :
    flagOf (firebase_auth_handler true true (fun _ => Except.ok cNoEmail)
        InsertOutcome.ok { idToken := "tok2" } [] "t0").1 = some true
    ∧ statusOf (firebase_auth_handler true true (fun _ => Except.ok cNoEmail)
        InsertOutcome.ok { idToken := "tok2" } [] "t0").1 = 200
    ∧ countUid (firebase_auth_handler true true (fun _ => Except.ok cNoEmail)
        InsertOutcome.ok { idToken := "tok2" } [] "t0").2 "noemail-1" = 1 :=
  ⟨rfl, rfl, rfl⟩

/-- Claim C2 as amended: the login flow has no EmailMissing / 400 path
and no email check before creation.  With an empty-string or absent
email and no row for the id, it always takes the create branch and
stores the row with the email exactly as it came in the claims; the
status is never 400: with an empty-string email the call succeeds with
`is_new_user = true` (pydantic accepts the empty string), while with an
absent email the call answers 500, because the response model rejects
the null email after the row was already stored. -/
theorem C2_amended_no_email_check (c : Claims) (req : TokenRequest)
    (db : List UserRow) (now : String)
    (hemail : c.email = some "" ∨ c.email = none)
    (hdb : countUid db c.uid = 0) :
    (firebase_auth_handler true true (fun _ => Except.ok c)
        InsertOutcome.ok req db now).2 = db ++ [user_record c now]
    ∧ (user_record c now).email = c.email
    ∧ statusOf (firebase_auth_handler true true (fun _ => Except.ok c)
        InsertOutcome.ok req db now).1 ≠ 400
    ∧ (c.email = some "" →
        flagOf (firebase_auth_handler true true (fun _ => Except.ok c)
          InsertOutcome.ok req db now).1 = some true)
    ∧ (c.email = none →
        statusOf (firebase_auth_handler true true (fun _ => Except.ok c)
          InsertOutcome.ok req db now).1 = 500) := by
  rw [auth_handler_create c req db now hdb]
  rcases hemail with he | he
  · have hure : (user_record c now).email = some "" := he
    have hs : shape_auth_response "User registered and logged in successfully" true
        (user_record c now)
        = Except.ok { success := true
                      message := "User registered and logged in successfully"
                      user := { uid := (user_record c now).firebase_uid
                                email := ""
                                name := (user_record c now).name
                                picture := (user_record c now).picture
                                provider := (user_record c now).provider
                                email_verified := (user_record c now).email_verified
                                created_at := some (user_record c now).created_at
                                last_login := some (user_record c now).last_login }
                      is_new_user := true } := by
      unfold shape_auth_response mkUserProfile
      rw [hure]
    rw [hs]
    refine ⟨rfl, rfl, by simp [statusOf, ApiError.statusCode], fun _ => rfl, ?_⟩
    intro habs
    rw [he] at habs
    exact Option.noConfusion habs
  · have hure : (user_record c now).email = (none : Option String) := he
    have hs : shape_auth_response "User registered and logged in successfully" true
        (user_record c now)
        = Except.error (ApiError.internalError
            "Internal server error during authentication") := by
      unfold shape_auth_response mkUserProfile
      rw [hure]
    rw [hs]
    refine ⟨rfl, rfl, by simp [statusOf, ApiError.statusCode], ?_, fun _ => rfl⟩
    intro habs
    rw [he] at habs
    exact Option.noConfusion habs

/-- Witness for the amended C2, at the empty-email claims and empty
table: the row is created, the status is not 400, and the flag is
`is_new_user = true`. -/
theorem C2_witness :
    (cNoEmail.email = some "" ∨ cNoEmail.email = none)
    ∧ countUid ([] : List UserRow) cNoEmail.uid = 0
    ∧ statusOf (firebase_auth_handler true true (fun _ => Except.ok cNoEmail)
        InsertOutcome.ok { idToken := "tok2" } [] "t9").1 ≠ 400
    ∧ flagOf (firebase_auth_handler true true (fun _ => Except.ok cNoEmail)
        InsertOutcome.ok { idToken := "tok2" } [] "t9").1 = some true := by
  have h := C2_amended_no_email_check cNoEmail { idToken := "tok2" } [] "t9"
    (Or.inl rfl) rfl
  exact ⟨Or.inl rfl, rfl, h.2.2.1, h.2.2.2.1 rfl⟩

/-- Claim C3: a login against an existing profile refreshes only
`last_login`: erasing `last_login` the table is unchanged (so email,
name, picture and every other field keep their pre-call values), and
the matching rows have `last_login` set to the call's timestamp. -/
theorem C3_login_frame (c : Claims) (req : TokenRequest) (ins : InsertOutcome)
    (db : List UserRow) (now : String) (hex : 0 < countUid db c.uid) :
    (firebase_auth_handler true true (fun _ => Except.ok c) ins req db now).2.map eraseLastLogin
        = db.map eraseLastLogin
    ∧ ∀ r ∈ (firebase_auth_handler true true (fun _ => Except.ok c) ins req db now).2,
        r.firebase_uid = c.uid → r.last_login = now := by
  obtain ⟨u, _, hu⟩ := auth_handler_found c req ins db now hex
  rw [hu]
  constructor
  · rw [List.map_map]
    apply List.map_congr_left
    intro r _
    simp only [Function.comp_apply, eraseLastLogin, refresh_last_login]
    split <;> rfl
  · intro r hr hruid
    simp only [List.mem_map] at hr
    obtain ⟨r0, _, hrr⟩ := hr
    unfold refresh_last_login at hrr
    cases hb : r0.firebase_uid == c.uid with
    | true => rw [hb] at hrr; simp at hrr; rw [← hrr]
    | false =>
      rw [hb] at hrr
      simp at hrr
      rw [← hrr] at hruid
      simp at hb
      exact absurd hruid hb

/-- Witness for C3: a login for `u3` with claims carrying a different
name, email and picture leaves the stored row identical apart from
`last_login`, which becomes the new timestamp. -/
theorem C3_witness :
    0 < countUid [row3] c3.uid
    ∧ (firebase_auth_handler true true (fun _ => Except.ok c3)
        InsertOutcome.ok { idToken := "tok3" } [row3] "t99").2.map eraseLastLogin
        = [row3].map eraseLastLogin
    ∧ ∀ r ∈ (firebase_auth_handler true true (fun _ => Except.ok c3)
        InsertOutcome.ok { idToken := "tok3" } [row3] "t99").2,
        r.firebase_uid = c3.uid → r.last_login = "t99" := by
  have h := C3_login_frame c3 { idToken := "tok3" } InsertOutcome.ok [row3] "t99"
    (by decide)
  exact ⟨by decide, h.1, h.2⟩

/-- Claim C4 counterexample: the verifier does not distinguish failure
kinds: an expired token and an invalid-signature token produce literally
the same outcome, and a transient provider outage during verification is
also mapped to the very same 401, not to a service-unavailable kind. -/
theorem C4_counterexample :
    verify_firebase_token true (fun _ => Except.error TokenFailure.expired)
        = verify_firebase_token true (fun _ => Except.error TokenFailure.invalidSignature)
    ∧ verify_firebase_token true (fun _ => Except.error TokenFailure.providerOutage)
        = Except.error (ApiError.unauthorized "Invalid or expired Firebase token") :=
  ⟨rfl, rfl⟩

/-- Claim C4 as amended: the single `except Exception` clause of
`verify_firebase_token` maps every verification failure — expired,
invalid signature, clock skew, provider outage — to one identical
401 error with the one detail string; only the missing-configuration
case is distinguished, as a 503 before any verification is attempted. -/
theorem C4_amended_single_error_kind :
    (∀ f : TokenFailure,
      verify_firebase_token true (fun _ => Except.error f)
        = Except.error (ApiError.unauthorized "Invalid or expired Firebase token"))
    ∧ ∀ a : Nat → Except TokenFailure Claims,
      verify_firebase_token false a
        = Except.error (ApiError.serviceUnavailable
            "Firebase service is not configured. Please set up firebase-service-account.json") :=
  ⟨fun _ => rfl, fun _ => rfl⟩

/-- Claim C5 counterexample: on a clock-skew failure the verifier performs
no retry at all: with a provider whose first verdict is `notYetValid` and
whose second verdict (what a single retry would see) is success, the
verifier still answers the generic 401. -/
theorem C5_counterexample :
    skewThenValid 1 = Except.ok cSkew
    ∧ verify_firebase_token true skewThenValid
        = Except.error (ApiError.unauthorized "Invalid or expired Firebase token") :=
  ⟨rfl, rfl⟩

/-- Claim C5 as amended: the verifier makes exactly one delegated
verification call and never retries, for clock skew or any other failure
kind: its outcome depends only on the first verdict. -/
theorem C5_amended_no_retry (fbInit : Bool)
    (a a' : Nat → Except TokenFailure Claims) (h : a 0 = a' 0) :
    verify_firebase_token fbInit a = verify_firebase_token fbInit a' := by
  unfold verify_firebase_token
  rw [h]

/-- Witness for the amended C5: the clock-skew-then-valid provider is
indistinguishable from the always-clock-skew provider. -/
theorem C5_witness :
    verify_firebase_token true skewThenValid
      = verify_firebase_token true (fun _ => Except.error TokenFailure.notYetValid) :=
  C5_amended_no_retry true skewThenValid
    (fun _ => Except.error TokenFailure.notYetValid) rfl

/-- Claim C6 counterexample: the login request body (`TokenRequest`)
carries only the token, so a client-supplied override can never reach the
create branch: for claims whose token name is "Token Name", the stored
new row takes the token value, while the spec's override-precedence rule
would have produced the override value "Override Name". -/
theorem C6_counterexample :
    (firebase_auth_handler true true (fun _ => Except.ok cTok6)
        InsertOutcome.ok { idToken := "tok6" } [] "t0").2
        = [user_record cTok6 "t0"]
    ∧ (user_record cTok6 "t0").name = "Token Name"
    ∧ (create_record_spec ovr6 cTok6 "t0").name = "Override Name" :=
  ⟨rfl, rfl, rfl⟩

/-- Claim C6 as amended: there are no client-supplied overrides (the
request body holds only `idToken`); the new row is built from the token
claims alone with empty defaults — exactly the spec's precedence rule
specialised to overrides all absent. -/
theorem C6_amended_claims_only :
    ∀ (c : Claims) (now : String),
      user_record c now = create_record_spec { name := none, picture := none } c now :=
  fun _ _ => rfl

/-- Claim C7, evaluated at the failing input: a `PUT` with both body
fields absent on an existing user does not return the untouched profile;
line 509 (`return UserProfile(**existing_user)`) raises a validation
error (the row dict has `firebase_uid`, not the required `uid`), which
the route maps to a 500. -/
theorem C7_code_bug_eval :
    update_user_profile true [row7] "u7" { name := none, picture := none }
      = (Except.error (ApiError.internalError "Failed to update user profile"), [row7]) :=
  rfl

/-- Claim C8 counterexample: the profile read, update and delete routes
take the identity from the URL path and no token at all; a request
without any bearer token is served with 200, mutates the stored row, and
deletes it — never a 401. -/
theorem C8_counterexample :
    statusOf (get_user_profile true [row8] "u8") = 200
    ∧ get_user_profile true [row8] "u8"
        = Except.ok { uid := "u8", email := "u8@x.com", name := "Eight"
                      picture := "pic8", provider := "google.com"
                      email_verified := true, created_at := some "c8"
                      last_login := some "l8" }
    ∧ (update_user_profile true [row8] "u8" { name := some "Changed", picture := none }).2
        = [{ row8 with name := "Changed" }]
    ∧ delete_user true [row8] "u8" (Except.ok [row8])
        = Except.ok { success := true
                      message := "User deleted from database successfully"
                      note := "Remember to also delete the user from Firebase on the frontend" } :=
  ⟨rfl, rfl, rfl, rfl⟩

/-- Claim C8 as amended: the read, update and delete routes perform no
authentication whatsoever: none of them can ever answer 401, whatever
the table, path id, body or store state. -/
theorem C8_amended_no_auth (sbInit : Bool) (db : List UserRow) (uid : String)
    (upd : UserUpdateRequest) (delR : Except String (List UserRow)) :
    statusOf (get_user_profile sbInit db uid) ≠ 401
    ∧ statusOf (update_user_profile sbInit db uid upd).1 ≠ 401
    ∧ statusOf (delete_user sbInit db uid delR) ≠ 401 := by
  refine ⟨?_, ?_, ?_⟩
  · unfold get_user_profile get_user_from_supabase
    cases sbInit with
    | false => simp [statusOf, ApiError.statusCode]
    | true =>
      cases hf : db.find? (fun r => r.firebase_uid == uid) with
      | none => simp [hf, statusOf, ApiError.statusCode]
      | some r =>
        cases hm : mkUserProfile r with
        | none => simp [hf, hm, statusOf, ApiError.statusCode]
        | some p => simp [hf, hm, statusOf, ApiError.statusCode]
  · unfold update_user_profile get_user_from_supabase
    cases sbInit with
    | false => simp [statusOf, ApiError.statusCode]
    | true =>
      cases hf : db.find? (fun r => r.firebase_uid == uid) with
      | none => simp [hf, statusOf, ApiError.statusCode]
      | some ex =>
        by_cases hcond : upd.name = none ∧ upd.picture = none
        · simp [hf, hcond, statusOf, ApiError.statusCode]
        · simp only [reduceIte, hf, if_neg hcond]
          cases hn : (db.map (fun r =>
              if r.firebase_uid == uid then apply_update_fields upd r else r)).find?
              (fun r => r.firebase_uid == uid) with
          | none => simp [hn, statusOf, ApiError.statusCode]
          | some u =>
            cases hm : mkUserProfile u with
            | none => simp [hn, hm, statusOf, ApiError.statusCode]
            | some p => simp [hn, hm, statusOf, ApiError.statusCode]
  · unfold delete_user get_user_from_supabase
    cases sbInit with
    | false => simp [statusOf, ApiError.statusCode]
    | true =>
      cases hf : db.find? (fun r => r.firebase_uid == uid) with
      | none => simp [hf, statusOf, ApiError.statusCode]
      | some r =>
        cases delR with
        | error m => simp [hf, statusOf, ApiError.statusCode]
        | ok res => simp [hf, statusOf, ApiError.statusCode]

/-- Claim C9 counterexample: when the delegated insert fails, the 500
response detail interpolates the raw store error text (line 239), and the
health endpoint embeds raw service error text in its body — raw
provider/store errors do cross into responses. -/
theorem C9_counterexample :
    (create_user_in_supabase true (InsertOutcome.fail rawErr) c9 "t0" []).1
        = Except.error (ApiError.internalError
            ("Failed to create user in database: " ++ rawErr))
    ∧ health_supabase_status (HealthProbe.err rawErr)
        = "error: " ++ (rawErr.take 50) :=
  ⟨rfl, rfl⟩

/-- Claim C9 as amended: most failure paths answer with fixed messages,
but the create-user path appends the raw exception text to its 500
detail verbatim, and the health endpoint reports raw service error text
(store text truncated to 50 characters) in its response body. -/
theorem C9_amended_leak (m : String) (c : Claims) (now : String) (db : List UserRow) :
    (create_user_in_supabase true (InsertOutcome.fail m) c now db).1
        = Except.error (ApiError.internalError
            ("Failed to create user in database: " ++ m))
    ∧ health_supabase_status (HealthProbe.err m) = "error: " ++ (m.take 50) :=
  ⟨rfl, rfl⟩

/-- Claim C10: once the preliminary lookup finds a row, the delete route
returns the fixed success body whenever the delegated delete call raises
no exception: the call's result is never inspected, so the outcome is
the same for any reported result — including one reporting zero rows
removed. -/
theorem C10_delete_ignores_result (db : List UserRow) (uid : String)
    (res res' : List UserRow)
    (hex : (db.find? (fun r => r.firebase_uid == uid)).isSome) :
    delete_user true db uid (Except.ok res) = delete_user true db uid (Except.ok res')
    ∧ delete_user true db uid (Except.ok [])
        = Except.ok { success := true
                      message := "User deleted from database successfully"
                      note := "Remember to also delete the user from Firebase on the frontend" } := by
  obtain ⟨r, hr⟩ := Option.isSome_iff_exists.mp hex
  unfold delete_user get_user_from_supabase
  simp [hr]

/-- Witness for C10: deleting `u10` reports success both when the store
says it removed the row and when it says it removed nothing. -/
theorem C10_witness :
    delete_user true [row10] "u10" (Except.ok [row10])
        = delete_user true [row10] "u10" (Except.ok [])
    ∧ delete_user true [row10] "u10" (Except.ok [])
        = Except.ok { success := true
                      message := "User deleted from database successfully"
                      note := "Remember to also delete the user from Firebase on the frontend" } :=
  C10_delete_ignores_result [row10] "u10" [row10] [] rfl

end AuraaSync
